import Mathlib

/-!
Shallow embedding of `app.py` (InstantREdotAI): a Flask service that turns a
structured real-estate request into generated document text, renders the text
into a watermarked preview PDF and a clean final PDF, and sells the final PDF
through a Stripe checkout session.

External effects are made explicit: the OpenAI call and the Stripe call are
parameters (the result the backend would return), the current date is a
parameter, and file writes are recorded as data instead of performed.
-/

/-- Styles used by `create_pdf` (lines 143-144): the navy centered heading
style and the justified body style. -/
inductive PStyle
  | titleStyle
  | normalStyle
deriving DecidableEq, Repr

/-- A reportlab flowable appended to the `content` list in `create_pdf`:
either a `Paragraph(text, style)` or a `Spacer(w, h)`. -/
inductive Flowable
  | para (text : String) (style : PStyle)
  | spacer (w h : Nat)
deriving DecidableEq, Repr

/-- Result of one call to `create_pdf` (lines 138-156).  `content` is the
flowable list the function builds; `built` records whether the function body
executed `doc.build` (wrote the PDF file).  In the source, `doc.build(content)`
on line 166 is indented under the module-level `for` loop on line 157, outside
the `def`, so the function body never builds the document: `built` is `false`
on every call. -/
structure CreatePdfResult where
  content : List Flowable
  built : Bool
deriving DecidableEq, Repr

/-- Python `str.upper()` on the character sequence (ASCII case mapping, the
alphabet of every title used here). -/
def pyUpper (s : String) : String :=
  String.mk (s.data.map Char.toUpper)

/-- Python `text.split(sep)` for a one-character separator: split on every
occurrence, keeping empty pieces. -/
def pySplit (s : String) (sep : Char) : List String :=
  (s.data.splitOn sep).map String.mk

/-- Python `para.strip()` is truthy exactly when the piece holds a
non-whitespace character. -/
def isNonBlank (p : String) : Bool :=
  p.data.any (fun c => !c.isWhitespace)

/-- The non-blank newline-separated lines of a text: the paragraphs the
body loop would keep. -/
def nonBlankLines (text : String) : List String :=
  (pySplit text '\n').filter isNonBlank

/-- `create_pdf(text, filepath, client_name, document_type, watermark)`,
lines 138-156 of `app.py`.  `dateStr` stands for
`datetime.now().strftime('%B %d, %Y')`.  The body: title paragraph
(uppercased `document_type`), "Prepared for" line, date line, optional
red "WATERMARKED PREVIEW" marker, then `paragraphs = text.split('\n')` —
after which the function returns.  The body-paragraph loop (line 157) and
`doc.build` (line 166) are dedented to module scope and are not part of
this function. -/
def create_pdf (text filepath client_name document_type : String)
    (dateStr : String) (watermark : Bool) : CreatePdfResult :=
  let content : List Flowable :=
    [Flowable.para (pyUpper document_type) PStyle.titleStyle, Flowable.spacer 1 20]
  let content := content ++
    [Flowable.para ("Prepared for: " ++ client_name) PStyle.titleStyle,
     Flowable.spacer 1 20,
     Flowable.para ("Date: " ++ dateStr) PStyle.normalStyle,
     Flowable.spacer 1 20]
  let content := content ++
    (if watermark then
      [Flowable.para "<font color=\x27red\x27>WATERMARKED PREVIEW</font>" PStyle.titleStyle,
       Flowable.spacer 1 20]
    else [])
  let _paragraphs := pySplit text '\n'
  let _ := filepath
  { content := content, built := false }

/-- The flowables of a `create_pdf` result that come after the header block
(title, client line, date line, and the watermark block when present): the
positions where body paragraphs would be appended. -/
def bodyFlowables (r : CreatePdfResult) (watermark : Bool) : List Flowable :=
  r.content.drop (if watermark then 8 else 6)

/-- The module-scope names bound by lines 1-156 of `app.py` when the
module-level statement on line 157 (`for para in paragraphs:`) executes:
imports, the Flask/Stripe/OpenAI configuration globals, and the three
functions defined so far.  `paragraphs` is not among them — it is only ever
assigned as a local inside `create_pdf`. -/
def moduleScopeNames : List String :=
  ["os", "json", "uuid", "datetime", "Flask", "render_template", "request",
   "jsonify", "send_from_directory", "CORS", "load_dotenv", "OpenAI",
   "letter", "SimpleDocTemplate", "Paragraph", "Spacer",
   "getSampleStyleSheet", "ParagraphStyle", "TA_CENTER", "TA_JUSTIFY",
   "colors", "stripe", "app", "STRIPE_PUBLISHABLE_KEY", "OPENAI_API_KEY",
   "client", "DOWNLOAD_FOLDER", "DOCUMENT_TYPES", "index",
   "generate_document", "create_pdf"]

/-- Outcome of evaluating a module-level statement. -/
inductive PyEvalResult
  | ok
  | nameError (name : String)
deriving DecidableEq, Repr

/-- Evaluation of the module-level statements on lines 157-166 of `app.py`:
the `for para in paragraphs:` loop headed at column 0.  Python resolves the
name `paragraphs` in the module scope; if it is unbound the statement raises
`NameError`. -/
def moduleTailEval : PyEvalResult :=
  if moduleScopeNames.contains "paragraphs" then PyEvalResult.ok
  else PyEvalResult.nameError "paragraphs"

/-- The incoming request body as seen by `form_data.get` in
`generate_document` (lines 54-77): for each key, `none` when the key is
absent and `some v` when it is present with string value `v`.  Both the
JSON and the form encodings expose the same `.get` interface, so one record
covers both. -/
structure FormData where
  document_type : Option String
  buyer_name : Option String
  seller_name : Option String
  client_name : Option String
  property_address : Option String
  purchase_price : Option String
  closing_date : Option String
  party_role : Option String
  property_state : Option String
  transaction_type : Option String
  additional_instructions : Option String
  clause_inspection : Option String
  clause_financing : Option String
  clause_appraisal : Option String
  clause_hoa : Option String
deriving DecidableEq, Repr

/-- The request body with every key absent. -/
def emptyForm : FormData :=
  { document_type := none, buyer_name := none, seller_name := none,
    client_name := none, property_address := none, purchase_price := none,
    closing_date := none, party_role := none, property_state := none,
    transaction_type := none, additional_instructions := none,
    clause_inspection := none, clause_financing := none,
    clause_appraisal := none, clause_hoa := none }

/-- The normalized request assembled by lines 61-77 of `generate_document`. -/
structure DocumentRequest where
  document_type : String
  buyer_name : String
  seller_name : String
  client_name : String
  property_address : String
  purchase_price : String
  closing_date : String
  party_role : String
  property_state : String
  transaction_type : String
  additional_instructions : String
  clause_inspection : Bool
  clause_financing : Bool
  clause_appraisal : Bool
  clause_hoa : Bool
deriving DecidableEq, Repr

/-- Python `bool(form_data.get(key))` for a form value: `None` (absent key)
and the empty string are falsy; any non-empty string is truthy. -/
def pyTruthy (v : Option String) : Bool :=
  match v with
  | none => false
  | some s => !s.isEmpty

/-- Lines 61-77 of `generate_document`: `form_data.get(key, default)`
substitutes the default only when the key is absent (Python `dict.get`), and
the four clause flags are `bool(form_data.get(key))`. -/
def extractRequest (f : FormData) : DocumentRequest :=
  { document_type := f.document_type.getD "real_estate_document",
    buyer_name := f.buyer_name.getD "Buyer",
    seller_name := f.seller_name.getD "Seller",
    client_name := f.client_name.getD "Client",
    property_address := f.property_address.getD "Unknown Address",
    purchase_price := f.purchase_price.getD "0",
    closing_date := f.closing_date.getD "TBD",
    party_role := f.party_role.getD "N/A",
    property_state := f.property_state.getD "Florida",
    transaction_type := f.transaction_type.getD "Residential Purchase",
    additional_instructions := f.additional_instructions.getD "",
    clause_inspection := pyTruthy f.clause_inspection,
    clause_financing := pyTruthy f.clause_financing,
    clause_appraisal := pyTruthy f.clause_appraisal,
    clause_hoa := pyTruthy f.clause_hoa }

/-- Python `str` of a `bool`, as interpolated into the f-string prompt. -/
def pyBoolStr (b : Bool) : String :=
  if b then "True" else "False"

/-- The prompt f-string of lines 85-107, with each interpolation replaced by
string concatenation. -/
def buildPrompt (r : DocumentRequest) : String :=
  "\nGenerate a professional Florida real estate contract styled after a FAR/BAR agreement. Use legal formatting, numbered sections, and clear, formal language expected in a standard real estate transaction.\n\nInclude the following fields:\n\n- Document Type: "
    ++ r.document_type
    ++ "\n- Buyer Name: " ++ r.buyer_name
    ++ "\n- Seller Name: " ++ r.seller_name
    ++ "\n- Property Address: " ++ r.property_address
    ++ "\n- Purchase Price: $" ++ r.purchase_price
    ++ "\n- Closing Date: " ++ r.closing_date
    ++ "\n- Party Role: " ++ r.party_role
    ++ "\n- State: " ++ r.property_state
    ++ "\n- Transaction Type: " ++ r.transaction_type
    ++ "\n- Optional Clauses:\n    • Inspection Contingency: " ++ pyBoolStr r.clause_inspection
    ++ "\n    • Financing Contingency: " ++ pyBoolStr r.clause_financing
    ++ "\n    • Appraisal Contingency: " ++ pyBoolStr r.clause_appraisal
    ++ "\n    • HOA Disclosure: " ++ pyBoolStr r.clause_hoa
    ++ "\n- Additional Instructions: " ++ r.additional_instructions
    ++ "\n\nInclude all required legal disclosures and a signature section for both buyer and seller. Start with a title header, and mark the preview as \x27WATERMARKED\x27 if requested.\n"

/-- Line 80: `uuid.uuid4().hex[:8]` — the first eight characters of the
32-character lowercase-hex rendering of a fresh UUID.  The hex string is a
parameter, the slice is modelled on the character list. -/
def uniqueIdOf (uuidHex : String) : String :=
  String.mk (uuidHex.data.take 8)

/-- Line 81: `f"preview_{document_type}_{unique_id}.pdf"`. -/
def previewFilenameOf (document_type uid : String) : String :=
  "preview_" ++ document_type ++ "_" ++ uid ++ ".pdf"

/-- Line 82: `f"{document_type}_{unique_id}.pdf"`. -/
def finalFilenameOf (document_type uid : String) : String :=
  document_type ++ "_" ++ uid ++ ".pdf"

/-- Lines 39-44: the `DOCUMENT_TYPES` dict. -/
def DOCUMENT_TYPES : List (String × String) :=
  [("sales_contract", "Real Estate Sales Contract"),
   ("lease_agreement", "Residential Lease Agreement"),
   ("addendum", "Real Estate Contract Addendum"),
   ("disclosure", "Property Condition Disclosure")]

/-- Python `DOCUMENT_TYPES.get(k, default)`. -/
def docTypesGet (k default : String) : String :=
  match DOCUMENT_TYPES.lookup k with
  | some v => v
  | none => default

/-- One invocation of `create_pdf` recorded by the handler: the positional
arguments of lines 125-126. -/
structure RenderCall where
  text : String
  filepath : String
  client_name : String
  document_type : String
  watermark : Bool
deriving DecidableEq, Repr

/-- The JSON body returned by `generate_document` on success (lines
128-132). -/
structure GenSuccessBody where
  success : Bool
  preview_url : String
  final_filename : String
deriving DecidableEq, Repr

/-- The HTTP response of `/generate-document`: the 200 success body, or the
500 error body produced by the `except` clause (lines 134-136). -/
inductive GenResponse
  | ok (body : GenSuccessBody)
  | error500 (error : String)
deriving DecidableEq, Repr

/-- The `/generate-document` handler, lines 50-136.  Parameters standing for
effects: `uuidHex` is `uuid.uuid4().hex`; `downloadFolder` is
`DOWNLOAD_FOLDER`; `openai` is the chat-completion backend, mapping the
prompt to either the completion text or the message of the exception it
raised.  The returned list records the `create_pdf` invocations the handler
made (empty when the backend raised, since the `try` block aborts to the
`except` clause before line 125). -/
def generate_document (f : FormData) (uuidHex downloadFolder : String)
    (openai : String → Except String String) :
    GenResponse × List RenderCall :=
  let r := extractRequest f
  let uid := uniqueIdOf uuidHex
  let preview_filename := previewFilenameOf r.document_type uid
  let final_filename := finalFilenameOf r.document_type uid
  let prompt := buildPrompt r
  match openai prompt with
  | Except.error e =>
      (GenResponse.error500 ("Failed to generate document: " ++ e), [])
  | Except.ok document_text =>
      let title := docTypesGet r.document_type "Real Estate Document"
      let preview_path := downloadFolder ++ "/" ++ preview_filename
      let final_path := downloadFolder ++ "/" ++ final_filename
      (GenResponse.ok
        { success := true,
          preview_url := "/download/" ++ preview_filename,
          final_filename := final_filename },
       [{ text := document_text, filepath := preview_path,
          client_name := r.client_name, document_type := title,
          watermark := true },
        { text := document_text, filepath := final_path,
          client_name := r.client_name, document_type := title,
          watermark := false }])

/-- One Stripe line item as passed to `stripe.checkout.Session.create`
(lines 192-201): currency, product name, unit amount in minor units,
quantity. -/
structure LineItem where
  currency : String
  product_name : String
  unit_amount : Nat
  quantity : Nat
deriving DecidableEq, Repr

/-- The argument record of `stripe.checkout.Session.create` (lines
190-205). -/
structure SessionParams where
  payment_method_types : List String
  line_items : List LineItem
  mode : String
  success_url : String
  cancel_url : String
deriving DecidableEq, Repr

/-- The HTTP response of `/create-checkout-session`: 400 for a missing
filename (line 188), 200 with the session id (line 206), or 500 from the
`except` clause (line 208). -/
inductive CheckoutResponse
  | badRequest400 (error : String)
  | ok (sessionId : String)
  | error500 (error : String)
deriving DecidableEq, Repr

/-- The `/create-checkout-session` handler, lines 173-208.  `finalFilename`
is `data.get("final_filename", "")` before the truthiness test, i.e. `none`
when the key is absent.  `stripeBackend` maps the session parameters to the
session id Stripe returns, or the message of the exception it raised.  The
second component records the parameters passed to
`stripe.checkout.Session.create`, `none` when that call was never made. -/
def create_checkout_session (finalFilename : Option String)
    (stripeBackend : SessionParams → Except String String) :
    CheckoutResponse × Option SessionParams :=
  let final_filename := finalFilename.getD ""
  if final_filename.isEmpty then
    (CheckoutResponse.badRequest400 "Missing document filename", none)
  else
    let params : SessionParams :=
      { payment_method_types := ["card"],
        line_items :=
          [{ currency := "usd", product_name := "Real Estate Document",
             unit_amount := 9900, quantity := 1 }],
        mode := "payment",
        success_url := "http://127.0.0.1:5001/download/" ++ final_filename,
        cancel_url := "http://127.0.0.1:5001/cancel" }
    match stripeBackend params with
    | Except.ok sid => (CheckoutResponse.ok sid, some params)
    | Except.error e => (CheckoutResponse.error500 e, some params)

/-- `needle` occurs as a contiguous substring of `hay`. -/
def containsStr (needle hay : String) : Prop :=
  ∃ pre suf, hay = pre ++ needle ++ suf

/-- `s` ends with `suffix`. -/
def strEndsWith (suffix s : String) : Prop :=
  ∃ pre, s = pre ++ suffix

/-- Lowercase hexadecimal digit, the alphabet of `uuid4().hex`. -/
def isHexLowerChar (c : Char) : Bool :=
  c.isDigit || (decide ('a'.toNat ≤ c.toNat) && decide (c.toNat ≤ 'f'.toNat))

theorem strAppend_assoc (a b c : String) : a ++ b ++ c = a ++ (b ++ c) := by
  apply String.ext
  simp [String.data_append]

theorem containsStr_refl (s : String) : containsStr s s := by
  refine ⟨"", "", ?_⟩
  apply String.ext
  simp [String.data_append]

theorem containsStr_append_left (x n h : String) :
    containsStr n h → containsStr n (x ++ h) := by
  rintro ⟨p, s, rfl⟩
  refine ⟨x ++ p, s, ?_⟩
  apply String.ext
  simp [String.data_append]

theorem containsStr_append_right (n h x : String) :
    containsStr n h → containsStr n (h ++ x) := by
  rintro ⟨p, s, rfl⟩
  refine ⟨p, s ++ x, ?_⟩
  apply String.ext
  simp [String.data_append]

/-- C1: in `create_pdf` the body-paragraph loop and the `doc.build` step lie
outside the function body — every call returns after splitting the text,
with no body paragraphs after the header block and the document never built
— while the module-level `for para in paragraphs` loop evaluates in a scope
that does not bind `paragraphs` and so reaches the undefined-name error. -/
theorem create_pdf_returns_before_body_loop
    (text filepath client_name document_type dateStr : String)
    (watermark : Bool) :
    (create_pdf text filepath client_name document_type dateStr watermark).built = false ∧
    bodyFlowables (create_pdf text filepath client_name document_type dateStr watermark) watermark = [] ∧
    moduleTailEval = PyEvalResult.nameError "paragraphs" := by
  refine ⟨rfl, ?_, rfl⟩
  cases watermark <;> rfl

/-- C2 (evidence of the code bug): for the generated text
"Section 1. Deposit." the preview call's content holds the red
"WATERMARKED PREVIEW" marker and the final call's content does not, but
neither call appends a single body paragraph and neither call builds or
writes any PDF artifact, so no rendered preview/final pair exists. -/
theorem create_pdf_writes_no_artifact :
    ((create_pdf "Section 1. Deposit." "p.pdf" "Alice" "Real Estate Sales Contract"
        "May 01, 2026" true).content.contains
      (Flowable.para "<font color=\x27red\x27>WATERMARKED PREVIEW</font>" PStyle.titleStyle) = true) ∧
    ((create_pdf "Section 1. Deposit." "f.pdf" "Alice" "Real Estate Sales Contract"
        "May 01, 2026" false).content.contains
      (Flowable.para "<font color=\x27red\x27>WATERMARKED PREVIEW</font>" PStyle.titleStyle) = false) ∧
    (create_pdf "Section 1. Deposit." "p.pdf" "Alice" "Real Estate Sales Contract"
        "May 01, 2026" true).built = false ∧
    (create_pdf "Section 1. Deposit." "f.pdf" "Alice" "Real Estate Sales Contract"
        "May 01, 2026" false).built = false ∧
    bodyFlowables (create_pdf "Section 1. Deposit." "p.pdf" "Alice"
        "Real Estate Sales Contract" "May 01, 2026" true) true = [] ∧
    bodyFlowables (create_pdf "Section 1. Deposit." "f.pdf" "Alice"
        "Real Estate Sales Contract" "May 01, 2026" false) false = [] := by
  decide

/-- C3 (evidence of the code bug): the text "Section 1.\nSection 2." has two
non-blank lines and no paragraph of it can fail re-encoding, yet the
`create_pdf` call appends zero body paragraphs, because the paragraph loop
sits at module scope where evaluating it raises the undefined-name error
for `paragraphs`. -/
theorem create_pdf_body_count_mismatch :
    (nonBlankLines "Section 1.\nSection 2.").length = 2 ∧
    (bodyFlowables (create_pdf "Section 1.\nSection 2." "f.pdf" "Alice"
        "Real Estate Sales Contract" "May 01, 2026" false) false).length = 0 ∧
    (2 : Nat) ≠ 0 ∧
    moduleTailEval = PyEvalResult.nameError "paragraphs" := by
  decide

/-- C4: a checkout request carrying a non-empty `final_filename` reaches the
payment backend with a session whose success redirect ends with
`/download/` followed by exactly that filename, and with a single line item
of exactly 9900 minor units. -/
theorem checkout_binds_filename_and_price (fn : String)
    (stripeBackend : SessionParams → Except String String)
    (h : fn.isEmpty = false) :
    ∃ params, (create_checkout_session (some fn) stripeBackend).2 = some params ∧
      strEndsWith ("/download/" ++ fn) params.success_url ∧
      params.line_items =
        [{ currency := "usd", product_name := "Real Estate Document",
           unit_amount := 9900, quantity := 1 }] := by
  unfold create_checkout_session
  simp only [Option.getD_some, h, Bool.false_eq_true, if_false]
  refine ⟨{ payment_method_types := ["card"],
            line_items :=
              [{ currency := "usd", product_name := "Real Estate Document",
                 unit_amount := 9900, quantity := 1 }],
            mode := "payment",
            success_url := "http://127.0.0.1:5001/download/" ++ fn,
            cancel_url := "http://127.0.0.1:5001/cancel" },
          ?_, ⟨"http://127.0.0.1:5001", ?_⟩, rfl⟩
  · cases hb : stripeBackend
        { payment_method_types := ["card"],
          line_items :=
            [{ currency := "usd", product_name := "Real Estate Document",
               unit_amount := 9900, quantity := 1 }],
          mode := "payment",
          success_url := "http://127.0.0.1:5001/download/" ++ fn,
          cancel_url := "http://127.0.0.1:5001/cancel" } <;> simp [hb]
  · show "http://127.0.0.1:5001/download/" ++ fn =
      "http://127.0.0.1:5001" ++ ("/download/" ++ fn)
    rw [show ("http://127.0.0.1:5001/download/" : String) =
      "http://127.0.0.1:5001" ++ "/download/" from rfl, strAppend_assoc]

/-- C4 witness: the filename "sales_contract_ab12cd34.pdf" yields a session
whose success redirect ends with `/download/sales_contract_ab12cd34.pdf`
and the flat 9900-minor-unit line item. -/
theorem checkout_binds_filename_and_price_witness :
    ∃ params,
      (create_checkout_session (some "sales_contract_ab12cd34.pdf")
        (fun _ => Except.ok "sess_1")).2 = some params ∧
      strEndsWith ("/download/" ++ "sales_contract_ab12cd34.pdf") params.success_url ∧
      params.line_items =
        [{ currency := "usd", product_name := "Real Estate Document",
           unit_amount := 9900, quantity := 1 }] :=
  checkout_binds_filename_and_price "sales_contract_ab12cd34.pdf"
    (fun _ => Except.ok "sess_1") rfl

/-- C5: a checkout request with an absent or empty `final_filename` answers
HTTP 400 with exactly "Missing document filename", and the Stripe
session-creation call is never made. -/
theorem checkout_missing_filename_rejected (ff : Option String)
    (stripeBackend : SessionParams → Except String String)
    (h : ff = none ∨ ff = some "") :
    create_checkout_session ff stripeBackend =
      (CheckoutResponse.badRequest400 "Missing document filename", none) := by
  rcases h with h | h <;> subst h <;> rfl

/-- C5 witness: the absent-filename request is rejected with 400 and no
backend call. -/
theorem checkout_missing_filename_rejected_witness :
    create_checkout_session none (fun _ => Except.ok "sess_1") =
      (CheckoutResponse.badRequest400 "Missing document filename", none) :=
  checkout_missing_filename_rejected none (fun _ => Except.ok "sess_1") (Or.inl rfl)

/-- C6: one generation derives both filenames from a single fresh token —
the first eight characters of the UUID hex — so the preview name is
`preview_{document_type}_{token}.pdf`, the final name is
`{document_type}_{token}.pdf`, the token is eight lowercase-hex characters,
and both names share it. -/
theorem filenames_share_one_token (uuidHex dt : String)
    (h1 : uuidHex.data.length = 32)
    (h2 : ∀ c ∈ uuidHex.data, isHexLowerChar c = true) :
    ∃ token, token = uniqueIdOf uuidHex ∧
      token.data.length = 8 ∧
      (∀ c ∈ token.data, isHexLowerChar c = true) ∧
      previewFilenameOf dt token = "preview_" ++ dt ++ "_" ++ token ++ ".pdf" ∧
      finalFilenameOf dt token = dt ++ "_" ++ token ++ ".pdf" := by
  refine ⟨uniqueIdOf uuidHex, rfl, ?_, ?_, rfl, rfl⟩
  · show (uuidHex.data.take 8).length = 8
    simp [List.length_take, h1]
  · intro c hc
    exact h2 c (List.mem_of_mem_take hc)

/-- C6 witness: a concrete 32-character UUID hex yields the token
"0a1b2c3d" shared by both filenames. -/
theorem filenames_share_one_token_witness :
    ∃ token, token = uniqueIdOf "0a1b2c3d4e5f60718293a4b5c6d7e8f9" ∧
      token.data.length = 8 ∧
      (∀ c ∈ token.data, isHexLowerChar c = true) ∧
      previewFilenameOf "sales_contract" token =
        "preview_" ++ "sales_contract" ++ "_" ++ token ++ ".pdf" ∧
      finalFilenameOf "sales_contract" token =
        "sales_contract" ++ "_" ++ token ++ ".pdf" :=
  filenames_share_one_token "0a1b2c3d4e5f60718293a4b5c6d7e8f9" "sales_contract"
    (by decide) (by decide)

/-- C7 counterexample: a body whose `buyer_name` key is present with the
empty (falsy) value is not replaced by any default — the normalized buyer
name stays empty, so not every field is populated; and a body missing
`client_name` is filled with "Client", a default outside the claim's list. -/
theorem extractRequest_falsy_not_replaced :
    pyTruthy (some "") = false ∧
    (extractRequest { emptyForm with buyer_name := some "" }).buyer_name = "" ∧
    ("" : String) ≠ "Buyer" ∧
    (extractRequest emptyForm).client_name = "Client" ∧
    "Client" ∉ ["Buyer", "Seller", "0", "TBD", "N/A", "Florida",
      "Residential Purchase", ""] := by
  decide

/-- C7 (amended): only a field whose key is absent is replaced by its fixed
textual default — "real_estate_document", "Buyer", "Seller", "Client",
"Unknown Address", "0", "TBD", "N/A", "Florida", "Residential Purchase",
and the empty string for additional instructions — while a field present
with any value, the empty string included, is kept verbatim; the four
clause booleans are the truthiness of the raw value, absent meaning false. -/
theorem extractRequest_defaults_only_for_missing (f : FormData) :
    (f.document_type = none → (extractRequest f).document_type = "real_estate_document") ∧
    (∀ s, f.document_type = some s → (extractRequest f).document_type = s) ∧
    (f.buyer_name = none → (extractRequest f).buyer_name = "Buyer") ∧
    (∀ s, f.buyer_name = some s → (extractRequest f).buyer_name = s) ∧
    (f.seller_name = none → (extractRequest f).seller_name = "Seller") ∧
    (∀ s, f.seller_name = some s → (extractRequest f).seller_name = s) ∧
    (f.client_name = none → (extractRequest f).client_name = "Client") ∧
    (∀ s, f.client_name = some s → (extractRequest f).client_name = s) ∧
    (f.property_address = none → (extractRequest f).property_address = "Unknown Address") ∧
    (∀ s, f.property_address = some s → (extractRequest f).property_address = s) ∧
    (f.purchase_price = none → (extractRequest f).purchase_price = "0") ∧
    (∀ s, f.purchase_price = some s → (extractRequest f).purchase_price = s) ∧
    (f.closing_date = none → (extractRequest f).closing_date = "TBD") ∧
    (∀ s, f.closing_date = some s → (extractRequest f).closing_date = s) ∧
    (f.party_role = none → (extractRequest f).party_role = "N/A") ∧
    (∀ s, f.party_role = some s → (extractRequest f).party_role = s) ∧
    (f.property_state = none → (extractRequest f).property_state = "Florida") ∧
    (∀ s, f.property_state = some s → (extractRequest f).property_state = s) ∧
    (f.transaction_type = none → (extractRequest f).transaction_type = "Residential Purchase") ∧
    (∀ s, f.transaction_type = some s → (extractRequest f).transaction_type = s) ∧
    (f.additional_instructions = none → (extractRequest f).additional_instructions = "") ∧
    (∀ s, f.additional_instructions = some s → (extractRequest f).additional_instructions = s) ∧
    (f.clause_inspection = none → (extractRequest f).clause_inspection = false) ∧
    (∀ s, f.clause_inspection = some s → (extractRequest f).clause_inspection = !s.isEmpty) ∧
    (f.clause_financing = none → (extractRequest f).clause_financing = false) ∧
    (∀ s, f.clause_financing = some s → (extractRequest f).clause_financing = !s.isEmpty) ∧
    (f.clause_appraisal = none → (extractRequest f).clause_appraisal = false) ∧
    (∀ s, f.clause_appraisal = some s → (extractRequest f).clause_appraisal = !s.isEmpty) ∧
    (f.clause_hoa = none → (extractRequest f).clause_hoa = false) ∧
    (∀ s, f.clause_hoa = some s → (extractRequest f).clause_hoa = !s.isEmpty) := by
  refine ⟨?_, ?_, ?_, ?_, ?_, ?_, ?_, ?_, ?_, ?_, ?_, ?_, ?_, ?_, ?_, ?_,
    ?_, ?_, ?_, ?_, ?_, ?_, ?_, ?_, ?_, ?_, ?_, ?_, ?_, ?_⟩
  all_goals first
    | (intro h; simp [extractRequest, pyTruthy, h])
    | (intro s h; simp [extractRequest, pyTruthy, h])

/-- C7 witness: an all-absent body normalizes to the document-type default,
and a present buyer name passes through verbatim. -/
theorem extractRequest_defaults_only_for_missing_witness :
    (extractRequest emptyForm).document_type = "real_estate_document" ∧
    (extractRequest { emptyForm with buyer_name := some "Alice" }).buyer_name = "Alice" :=
  ⟨(extractRequest_defaults_only_for_missing emptyForm).1 rfl,
   (extractRequest_defaults_only_for_missing
      { emptyForm with buyer_name := some "Alice" }).2.2.2.1 "Alice" rfl⟩

/-- C8: the prompt built from a normalized request contains every request
field — the eleven textual fields and the four clause booleans (rendered as
Python renders them) — as a substring. -/
theorem buildPrompt_contains_every_field (r : DocumentRequest) :
    containsStr r.document_type (buildPrompt r) ∧
    containsStr r.buyer_name (buildPrompt r) ∧
    containsStr r.seller_name (buildPrompt r) ∧
    containsStr r.property_address (buildPrompt r) ∧
    containsStr r.purchase_price (buildPrompt r) ∧
    containsStr r.closing_date (buildPrompt r) ∧
    containsStr r.party_role (buildPrompt r) ∧
    containsStr r.property_state (buildPrompt r) ∧
    containsStr r.transaction_type (buildPrompt r) ∧
    containsStr r.additional_instructions (buildPrompt r) ∧
    containsStr (pyBoolStr r.clause_inspection) (buildPrompt r) ∧
    containsStr (pyBoolStr r.clause_financing) (buildPrompt r) ∧
    containsStr (pyBoolStr r.clause_appraisal) (buildPrompt r) ∧
    containsStr (pyBoolStr r.clause_hoa) (buildPrompt r) := by
  unfold buildPrompt
  refine ⟨?_, ?_, ?_, ?_, ?_, ?_, ?_, ?_, ?_, ?_, ?_, ?_, ?_, ?_⟩
  all_goals repeat first
    | exact containsStr_append_left _ _ _ (containsStr_refl _)
    | apply containsStr_append_right

/-- C9: every `/generate-document` call either answers the success body —
`success: true` with the preview URL `/download/{preview_filename}` and the
final filename, both artifacts at once — or answers the 500 error body
carrying only an error message and naming neither artifact; no response
shape reports just one of the two. -/
theorem generate_document_all_or_nothing (f : FormData)
    (uuidHex downloadFolder : String)
    (openai : String → Except String String) :
    (∃ e, (generate_document f uuidHex downloadFolder openai).1 =
        GenResponse.error500 ("Failed to generate document: " ++ e)) ∨
    (generate_document f uuidHex downloadFolder openai).1 =
      GenResponse.ok
        { success := true,
          preview_url := "/download/" ++
            previewFilenameOf (extractRequest f).document_type (uniqueIdOf uuidHex),
          final_filename :=
            finalFilenameOf (extractRequest f).document_type (uniqueIdOf uuidHex) } := by
  cases h : openai (buildPrompt (extractRequest f)) with
  | error e => exact Or.inl ⟨e, by simp [generate_document, h]⟩
  | ok t => exact Or.inr (by simp [generate_document, h])

/-- C10: a request whose document type is not a key of `DOCUMENT_TYPES` is
not rejected — generation succeeds when the backend does — the fallback
label "Real Estate Document" is the display title handed to both renders
(appearing uppercased as the heading of each content list), and the raw
document-type string still appears verbatim in both artifact filenames. -/
theorem unknown_document_type_not_rejected (f : FormData)
    (uuidHex downloadFolder text dt : String)
    (openai : String → Except String String)
    (h1 : f.document_type = some dt)
    (h2 : DOCUMENT_TYPES.lookup dt = none)
    (h3 : openai (buildPrompt (extractRequest f)) = Except.ok text) :
    ∃ body calls,
      generate_document f uuidHex downloadFolder openai = (GenResponse.ok body, calls) ∧
      body.success = true ∧
      body.final_filename = dt ++ "_" ++ uniqueIdOf uuidHex ++ ".pdf" ∧
      body.preview_url = "/download/" ++ ("preview_" ++ dt ++ "_" ++ uniqueIdOf uuidHex ++ ".pdf") ∧
      calls.length = 2 ∧
      (∀ c ∈ calls, c.document_type = "Real Estate Document") ∧
      (∀ c ∈ calls, ∀ dateStr,
        (create_pdf c.text c.filepath c.client_name c.document_type dateStr c.watermark).content.head? =
          some (Flowable.para (pyUpper "Real Estate Document") PStyle.titleStyle)) ∧
      pyUpper "Real Estate Document" = "REAL ESTATE DOCUMENT" := by
  have hdreq : (extractRequest f).document_type = dt := by
    simp [extractRequest, h1]
  refine ⟨{ success := true,
            preview_url := "/download/" ++ previewFilenameOf dt (uniqueIdOf uuidHex),
            final_filename := finalFilenameOf dt (uniqueIdOf uuidHex) },
          [{ text := text,
             filepath := downloadFolder ++ "/" ++ previewFilenameOf dt (uniqueIdOf uuidHex),
             client_name := (extractRequest f).client_name,
             document_type := "Real Estate Document", watermark := true },
           { text := text,
             filepath := downloadFolder ++ "/" ++ finalFilenameOf dt (uniqueIdOf uuidHex),
             client_name := (extractRequest f).client_name,
             document_type := "Real Estate Document", watermark := false }],
          ?_, rfl, rfl, rfl, rfl, ?_, ?_, by decide⟩
  · simp [generate_document, h3, hdreq, docTypesGet, h2]
  · intro c hc
    simp only [List.mem_cons, List.not_mem_nil, or_false] at hc
    rcases hc with rfl | rfl <;> rfl
  · intro c hc dateStr
    simp only [List.mem_cons, List.not_mem_nil, or_false] at hc
    rcases hc with rfl | rfl <;> rfl

/-- C10 witness: the unknown type "custom_doc" is accepted, keeps its raw
string in the final filename, and both renders are titled with the generic
fallback label. -/
theorem unknown_document_type_not_rejected_witness :
    ∃ body calls,
      generate_document { emptyForm with document_type := some "custom_doc" }
        "0a1b2c3d4e5f60718293a4b5c6d7e8f9" "static/downloads"
        (fun _ => Except.ok "Hello") = (GenResponse.ok body, calls) ∧
      body.final_filename = "custom_doc_0a1b2c3d.pdf" ∧
      (∀ c ∈ calls, c.document_type = "Real Estate Document") := by
  obtain ⟨b, cs, hpair, _, hfin, _, _, hdoc, _, _⟩ :=
    unknown_document_type_not_rejected
      { emptyForm with document_type := some "custom_doc" }
      "0a1b2c3d4e5f60718293a4b5c6d7e8f9" "static/downloads" "Hello" "custom_doc"
      (fun _ => Except.ok "Hello") rfl (by decide) rfl
  refine ⟨b, cs, hpair, ?_, hdoc⟩
  rw [hfin]
  decide
